import Mathlib

/-!
Shallow embedding of `src/main.rs` of the transaction-compatibility probe.

Modelling conventions:
* `U256`/`U64`/`u64` machine integers are modelled as `Nat`; none of the
  verified properties involve overflow of these widths (fee values are the
  constants 0 and 1, selectors live in `0..=5`, statuses are compared to 1).
  Where a width matters (the `u8` selector, `u64` env parsing) the bound
  `< 2^8` / `< 2^64` is stated explicitly.
* `Address` (20 bytes) is modelled as `Nat`; its lowercase-hex rendering is
  made explicit where a claim is about the rendered text.
* Fallible Rust code (`Result`, `?`) becomes `Except`.
* The network client (`SignerMiddleware::send_transaction` and the pending
  receipt await) is an external collaborator; it is modelled as an oracle
  function supplied to the orchestrator, so theorems quantify over every
  possible behaviour of the node.
-/

/-- `ethers::types::NameOrAddress`; the program only ever uses the
`Address` variant. -/
inductive NameOrAddress where
  | name (n : String)
  | address (a : Nat)
deriving DecidableEq, Repr

/-- `ethers::types::transaction::eip2930::AccessList`: a list of
(address, storage-keys) items; `AccessList::default()` is `[]`. -/
abbrev AccessList := List (Nat × List Nat)

/-- `ethers::types::TransactionRequest` (legacy transaction request).
Fields the program never touches keep their `Default::default()` value
`none`; `data` is omitted (never set, never read). -/
structure TransactionRequest where
  from_ : Option Nat := none
  to_ : Option NameOrAddress := none
  gas : Option Nat := none
  gas_price : Option Nat := none
  value : Option Nat := none
  nonce : Option Nat := none
  chain_id : Option Nat := none
deriving DecidableEq, Repr

/-- `ethers::types::Eip2930TransactionRequest`: a legacy-shaped base
transaction plus an access list. `Eip2930TransactionRequest::new(tx, al)`
is the anonymous constructor. -/
structure Eip2930TransactionRequest where
  tx : TransactionRequest
  access_list : AccessList
deriving DecidableEq, Repr

/-- `ethers::types::Eip1559TransactionRequest`. This shape has no single
`gas_price` field at all; unset fields keep their default. -/
structure Eip1559TransactionRequest where
  from_ : Option Nat := none
  to_ : Option NameOrAddress := none
  gas : Option Nat := none
  value : Option Nat := none
  nonce : Option Nat := none
  access_list : AccessList := []
  max_priority_fee_per_gas : Option Nat := none
  max_fee_per_gas : Option Nat := none
  chain_id : Option Nat := none
deriving DecidableEq, Repr

/-- `ethers::types::transaction::eip2718::TypedTransaction`. -/
inductive TypedTransaction where
  | legacy (tx : TransactionRequest)
  | eip2930 (tx : Eip2930TransactionRequest)
  | eip1559 (tx : Eip1559TransactionRequest)
deriving DecidableEq, Repr

/-- The two `eyre!` error shapes produced by `build_tx`
(`main.rs:231-236`), distinguished by their format strings; each carries
the offending selector. -/
inductive BuildError where
  | unsupportedType (tx_type : Nat)
  | unknownType (tx_type : Nat)
deriving DecidableEq, Repr

/-- The rendered `eyre` message of each `build_tx` error, exactly the
format strings at `main.rs:231-236`. -/
def BuildError.message : BuildError → String
  | .unsupportedType t =>
      "unsupported by current ethers TypedTransaction (no variant for type "
        ++ toString t ++ ")"
  | .unknownType t => "unknown tx type " ++ toString t

/-- `build_tx` (`main.rs:191-238`). The selector is a `u8`; it is taken
here as a `Nat`, with `tx_type < 256` imposed in theorems that range over
"every representable selector". The Rust
`if let Some(gp) = gas_price { tx.gas_price = Some(gp) }` on a
default-`None` field is exactly `gas_price := gas_price`. -/
def build_tx (tx_type : Nat) (from_ to_ value : Nat)
    (gas_price : Option Nat)
    (max_priority_fee_per_gas max_fee_per_gas : Nat) :
    Except BuildError TypedTransaction :=
  match tx_type with
  | 0 =>
      .ok (.legacy { from_ := some from_, to_ := some (.address to_),
                     value := some value, gas_price := gas_price })
  | 1 =>
      let legacy : TransactionRequest :=
        { from_ := some from_, to_ := some (.address to_),
          value := some value, gas_price := gas_price }
      .ok (.eip2930 ⟨legacy, []⟩)
  | 2 =>
      .ok (.eip1559 { from_ := some from_, to_ := some (.address to_),
                      value := some value,
                      max_priority_fee_per_gas := some max_priority_fee_per_gas,
                      max_fee_per_gas := some max_fee_per_gas })
  | 3 => .error (.unsupportedType 3)
  | 4 => .error (.unsupportedType 4)
  | 5 => .error (.unsupportedType 5)
  | t => .error (.unknownType t)

/-- The two receipt fields `main.rs` reads from
`ethers::types::TransactionReceipt`: `status : Option<U64>` and
`block_number : Option<U64>`. -/
structure Receipt where
  status : Option Nat
  block_number : Option Nat
deriving DecidableEq, Repr

/-- The observable behaviour of one successful
`client.send_transaction(..)` call: the pending handle's `tx_hash()` and
the outcome of `pending.await`
(`Ok(Some(receipt))` / `Ok(None)` / `Err(message)`). -/
structure Pending where
  tx_hash : Nat
  awaited : Except String (Option Receipt)
deriving Repr

/-- The observable behaviour of one `client.send_transaction(..)` call:
either a pending handle or a submission error message. -/
abbrev SubmitOutcome := Except String Pending

/-- Classification of a resolved confirmation wait, exactly the `match
pending.await` arms at `main.rs:65-88` (equally `main.rs:130-153`):
`Ok(Some(r))` maps `r.status` through `s == 1 ? "success" : "failed"`
with default `"unknown"`; `Ok(None)` is `"pending"`; `Err(e)` is
`"await error: e"`. -/
def classify_await : Except String (Option Receipt) → String
  | .ok (some r) =>
      (r.status.map (fun s => if s = 1 then "success" else "failed")).getD
        ("unknown")
  | .ok none => "pending"
  | .error e => "await error: " ++ e

/-- One iteration of the per-selector loop body (`main.rs:51-100`,
identically `main.rs:116-165`): build, submit through the client
(modelled by the `submit` oracle), classify; build failure records
`"unsupported"`, submission failure records `"submit error: e"`. -/
def run_attempt (submit : TypedTransaction → SubmitOutcome)
    (tx_type from_ to_ value : Nat) (gas_price : Option Nat)
    (max_priority_fee_per_gas max_fee_per_gas : Nat) : String :=
  match build_tx tx_type from_ to_ value gas_price
      max_priority_fee_per_gas max_fee_per_gas with
  | .ok tx =>
      match submit tx with
      | .ok pending => classify_await pending.awaited
      | .error e => "submit error: " ++ e
  | .error _ => "unsupported"

/-- One fee series (`for tx_type in 0u8..=5u8` at `main.rs:50` /
`main.rs:115`): the `results` vector accumulated by `push`, one
`(tx_type, outcome)` pair per iteration. -/
def run_series (submit : TypedTransaction → SubmitOutcome)
    (from_ to_ value : Nat) (gas_price : Option Nat)
    (max_priority_fee_per_gas max_fee_per_gas : Nat) :
    List (Nat × String) :=
  (List.range 6).map fun tx_type =>
    (tx_type,
     run_attempt submit tx_type from_ to_ value gas_price
       max_priority_fee_per_gas max_fee_per_gas)

/-- The post-configuration body of `main` (`main.rs:40-171`): series A
with every fee field zero (`suggested_gas_price = Some(0)`,
`max_priority_fee_per_gas = max_fee_per_gas = 0`, `main.rs:41-43`), then
series B with every fee field one (`main.rs:110-112`). Each summary is
the series' accumulated `results`, labelled as printed. The node is the
`oracle`, indexed by series so its behaviour may change between the two
passes. -/
def run_main (oracle : Nat → TypedTransaction → SubmitOutcome)
    (from_ to_ value : Nat) : List (String × List (Nat × String)) :=
  [("fees=0", run_series (oracle 0) from_ to_ value (some 0) 0 0),
   ("fees=1", run_series (oracle 1) from_ to_ value (some 1) 1 1)]

/-- Rust `str::parse::<u64>()`: optional leading `+`, then one or more
ASCII digits, value below `2^64`; anything else fails. -/
def parse_u64 (s : String) : Option Nat :=
  let cs := match s.data with
    | '+' :: rest => rest
    | cs => cs
  if cs.isEmpty then none
  else if cs.all Char.isDigit then
    let n := cs.foldl (fun acc c => acc * 10 + (c.toNat - 48)) 0
    if n < 2 ^ 64 then some n else none
  else none

/-- The configuration gathered at `main.rs:20-28`. -/
structure Config where
  rpc_url : String
  priv_key : String
  to_addr : String
  amount_eth : String
  chain_id : Nat
  priority_gwei : String
  fee_multiplier : Nat
deriving DecidableEq, Repr

/-- The fatal configuration errors of `main.rs:20-26`: a missing
required variable (`eyre!("{name} not set")`) or a `CHAIN_ID` string
whose `u64` parse fails and is propagated by `?`. -/
inductive ConfigError where
  | missingVar (name : String)
  | invalidChainId (s : String)
deriving DecidableEq, Repr

/-- `env::var(name).map_err(|_| eyre!("{name} not set"))?`
(`main.rs:20-22`); the environment is a partial map. -/
def env_var (env : String → Option String) (name : String) :
    Except ConfigError String :=
  match env name with
  | some v => .ok v
  | none => .error (.missingVar name)

/-- The environment-reading prefix of `main` (`main.rs:20-28`), in
source order: three required variables, then `AMOUNT_ETH` with default
`"0.001"`, `CHAIN_ID` parsed as `u64` with default `"11155111"` where a
parse failure is fatal (`.parse()?`), `PRIORITY_GWEI` with default
`"2"`, and `FEE_MULTIPLIER` parsed as `u64` where a parse failure
silently falls back to `2` (`.parse().unwrap_or(2)`). -/
def read_config (env : String → Option String) :
    Except ConfigError Config :=
  match env_var env ("RPC_URL") with
  | .error e => .error e
  | .ok rpc_url =>
    match env_var env ("PRIVATE_KEY") with
    | .error e => .error e
    | .ok priv_key =>
      match env_var env ("TO_ADDRESS") with
      | .error e => .error e
      | .ok to_addr =>
        let amount_eth := (env ("AMOUNT_ETH")).getD ("0.001")
        let chain_id_str := (env ("CHAIN_ID")).getD ("11155111")
        match parse_u64 chain_id_str with
        | none => .error (.invalidChainId chain_id_str)
        | some chain_id =>
          let priority_gwei := (env ("PRIORITY_GWEI")).getD ("2")
          let fee_multiplier :=
            (parse_u64 ((env ("FEE_MULTIPLIER")).getD ("2"))).getD 2
          .ok { rpc_url, priv_key, to_addr, amount_eth, chain_id,
                priority_gwei, fee_multiplier }

/-- The remaining startup steps between configuration and the probe
loops (`main.rs:31-38`), all external collaborators: URL validation in
`Provider::<Http>::try_from`, wallet-key parsing plus `wallet.address()`
(yielding the sender address), recipient-address parsing, and
`ethers::utils::parse_units(amount, "ether")` (yielding base units).
Theorems quantify over every behaviour of these. -/
structure Collaborators where
  try_provider : String → Except String Unit
  parse_wallet : String → Except String Nat
  parse_address : String → Except String Nat
  parse_units : String → Except String Nat

/-- A fatal `main` error: configuration (lines 20-28) or a collaborator
failure propagated by `?` (lines 31-38). Rust `main` returning `Err`
exits non-zero. -/
inductive MainError where
  | config (e : ConfigError)
  | collaborator (msg : String)
deriving DecidableEq, Repr

/-- `main` end to end (`main.rs:16-173`): read the environment, run the
fallible startup steps in source order, then the two probe series; the
value is the pair of labelled summaries. An `Except.error` result models
a non-zero process exit before any transaction attempt. -/
def main_run (env : String → Option String) (c : Collaborators)
    (oracle : Nat → TypedTransaction → SubmitOutcome) :
    Except MainError (List (String × List (Nat × String))) :=
  match read_config env with
  | .error e => .error (.config e)
  | .ok cfg =>
    match c.try_provider cfg.rpc_url with
    | .error e => .error (.collaborator e)
    | .ok _ =>
      match c.parse_wallet cfg.priv_key with
      | .error e => .error (.collaborator e)
      | .ok from_ =>
        match c.parse_address cfg.to_addr with
        | .error e => .error (.collaborator e)
        | .ok to_ =>
          match c.parse_units cfg.amount_eth with
          | .error e => .error (.collaborator e)
          | .ok value => .ok (run_main oracle from_ to_ value)

/-- Lowercase hex digit of a value below 16, as rendered by Rust's
`{:x}`. -/
def hexChar (n : Nat) : Char :=
  if n < 10 then Char.ofNat (48 + n) else Char.ofNat (87 + n)

/-- The 40 lowercase hex characters of `format!("{:x}", addr)` for a
20-byte `Address`, most significant digit first. -/
def toHex40 (a : Nat) : List Char :=
  (List.range 40).map fun i => hexChar (a / 16 ^ (39 - i) % 16)

/-- The display truncation of `format_address` (`main.rs:178-182`)
applied to an already rendered string, modelled on its characters: Rust
slices `&s[..8]` and `&s[s.len()-4..]` are byte-based, but every string
this program feeds in is ASCII, where bytes and characters coincide. -/
def short_display (s : List Char) : List Char :=
  if s.length > 12 then s.take 8 ++ '…' :: s.drop (s.length - 4) else s

/-- `format_address` (`main.rs:176-183`): render `format!("0x{:x}",
addr)` — `0x` plus all 40 hex digits — then truncate for display. -/
def format_address (a : Nat) : List Char :=
  short_display ('0' :: 'x' :: toHex40 a)

/-- All characters are ASCII digits and there is at least one. -/
def isDigits (cs : List Char) : Bool :=
  !cs.isEmpty && cs.all Char.isDigit

/-- Numeric value of a list of ASCII digits. -/
def digitsToNat (cs : List Char) : Nat :=
  cs.foldl (fun acc c => acc * 10 + (c.toNat - 48)) 0

/-- Split a character list at every occurrence of `sep`. -/
def splitOnChar (sep : Char) : List Char → List (List Char)
  | [] => [[]]
  | c :: cs =>
      match splitOnChar sep cs with
      | [] => if c = sep then [[], []] else [[c]]
      | h :: t => if c = sep then [] :: h :: t else (c :: h) :: t

/-- Modelled from the spec: `parse_amount(text, unit)` — the
`ethers::utils::parse_units(&amount_eth, "ether")` call at `main.rs:38`
is an external library collaborator, not code of this repository. Per
§4.1 it converts a human-decimal string scaled by the unit's base-10
exponent (`decimals`, 18 for the native coin) into an exact integer,
rejects values with more fractional digits than the unit supports, and
rejects non-numeric input. -/
def parse_amount (s : String) (decimals : Nat) : Option Nat :=
  match splitOnChar '.' s.data with
  | [whole] =>
      if isDigits whole then some (digitsToNat whole * 10 ^ decimals)
      else none
  | [whole, frac] =>
      if isDigits whole && isDigits frac && frac.length ≤ decimals then
        some (digitsToNat whole * 10 ^ decimals
          + digitsToNat frac * 10 ^ (decimals - frac.length))
      else none
  | _ => none

/-! ## Helper lemmas -/

theorem string_append_ne_empty {s : String} (t : String)
    (h : 0 < s.length) : s ++ t ≠ "" := by
  intro he
  have hl := congrArg String.length he
  rw [String.length_append] at hl
  have h0 : String.length ("") = 0 := by decide
  rw [h0] at hl
  omega

theorem classify_await_ne_empty (a : Except String (Option Receipt)) :
    classify_await a ≠ "" := by
  rcases a with e | o
  · exact string_append_ne_empty e (by decide)
  · rcases o with _ | r
    · decide
    · rcases r with ⟨st, bn⟩
      rcases st with _ | s
      · have h : classify_await (.ok (some ⟨none, bn⟩)) = "unknown" := rfl
        rw [h]
        decide
      · have h : classify_await (.ok (some ⟨some s, bn⟩)) =
            if s = 1 then "success" else "failed" := rfl
        rw [h]
        split
        · decide
        · decide

theorem run_attempt_ne_empty (submit : TypedTransaction → SubmitOutcome)
    (tx_type from_ to_ value : Nat) (gas_price : Option Nat)
    (max_priority_fee_per_gas max_fee_per_gas : Nat) :
    run_attempt submit tx_type from_ to_ value gas_price
      max_priority_fee_per_gas max_fee_per_gas ≠ "" := by
  unfold run_attempt
  split
  · split
    · exact classify_await_ne_empty _
    · exact string_append_ne_empty _ (by decide)
  · decide

theorem run_series_map_fst (submit : TypedTransaction → SubmitOutcome)
    (from_ to_ value : Nat) (gas_price : Option Nat)
    (max_priority_fee_per_gas max_fee_per_gas : Nat) :
    (run_series submit from_ to_ value gas_price
        max_priority_fee_per_gas max_fee_per_gas).map Prod.fst =
      [0, 1, 2, 3, 4, 5] := rfl

theorem run_series_snd_ne_empty (submit : TypedTransaction → SubmitOutcome)
    (from_ to_ value : Nat) (gas_price : Option Nat)
    (max_priority_fee_per_gas max_fee_per_gas : Nat) :
    ∀ p ∈ run_series submit from_ to_ value gas_price
        max_priority_fee_per_gas max_fee_per_gas, p.2 ≠ "" := by
  intro p hp
  simp only [run_series, List.mem_map] at hp
  obtain ⟨ty, -, rfl⟩ := hp
  exact run_attempt_ne_empty submit ty from_ to_ value gas_price
    max_priority_fee_per_gas max_fee_per_gas

/-! ## Claims -/

/-- C1: for every selector in `{0,1,2}` and all sender, recipient, value
and fee-profile arguments, `build_tx` succeeds, and the fee fields of
the spec follow the selector-specific rule: selector 0 builds a legacy
request whose single `gas_price` field is exactly the profile's
suggested gas price (present iff present, omitted otherwise); selector 1
wraps the same legacy-shaped base (same `gas_price` rule) together with
an empty access list; selector 2 builds an EIP-1559 request carrying
`max_priority_fee_per_gas` and `max_fee_per_gas` directly from the
profile, a shape that has no single gas-price field. -/
theorem spec_C1_build_supported (from_ to_ value : Nat)
    (gas_price : Option Nat)
    (max_priority_fee_per_gas max_fee_per_gas : Nat) :
    build_tx 0 from_ to_ value gas_price max_priority_fee_per_gas
        max_fee_per_gas =
      .ok (.legacy { from_ := some from_, to_ := some (.address to_),
                     value := some value, gas_price := gas_price }) ∧
    build_tx 1 from_ to_ value gas_price max_priority_fee_per_gas
        max_fee_per_gas =
      .ok (.eip2930
        ⟨{ from_ := some from_, to_ := some (.address to_),
           value := some value, gas_price := gas_price }, []⟩) ∧
    build_tx 2 from_ to_ value gas_price max_priority_fee_per_gas
        max_fee_per_gas =
      .ok (.eip1559 { from_ := some from_, to_ := some (.address to_),
                      value := some value,
                      max_priority_fee_per_gas :=
                        some max_priority_fee_per_gas,
                      max_fee_per_gas := some max_fee_per_gas }) :=
  ⟨rfl, rfl, rfl⟩

/-- C2: for every selector in `{3,4,5}` and all arguments, `build_tx`
fails with the unsupported-type error, whose rendered message carries
that exact selector value. -/
theorem spec_C2_build_unsupported (tx_type : Nat)
    (h : tx_type = 3 ∨ tx_type = 4 ∨ tx_type = 5)
    (from_ to_ value : Nat) (gas_price : Option Nat)
    (max_priority_fee_per_gas max_fee_per_gas : Nat) :
    build_tx tx_type from_ to_ value gas_price max_priority_fee_per_gas
        max_fee_per_gas =
      .error (.unsupportedType tx_type) ∧
    (BuildError.unsupportedType tx_type).message =
      "unsupported by current ethers TypedTransaction (no variant for type "
        ++ toString tx_type ++ ")" := by
  rcases h with rfl | rfl | rfl <;> exact ⟨rfl, rfl⟩

theorem spec_C2_witness :
    build_tx 4 11 22 33 (some 7) 8 9 =
      .error (.unsupportedType 4) ∧
    (BuildError.unsupportedType 4).message =
      "unsupported by current ethers TypedTransaction (no variant for type "
        ++ toString 4 ++ ")" :=
  spec_C2_build_unsupported 4 (Or.inr (Or.inl rfl)) 11 22 33 (some 7) 8 9

/-- C7: for every selector value outside `0..=5` that a `u8` can
represent, `build_tx` fails with the unknown-type error identifying that
selector — in particular never with the unsupported-type error and never
with success. -/
theorem spec_C7_unknown_type (tx_type : Nat) (h6 : 6 ≤ tx_type)
    (h256 : tx_type < 256) (from_ to_ value : Nat)
    (gas_price : Option Nat)
    (max_priority_fee_per_gas max_fee_per_gas : Nat) :
    build_tx tx_type from_ to_ value gas_price max_priority_fee_per_gas
        max_fee_per_gas =
      .error (.unknownType tx_type) := by
  obtain ⟨k, rfl⟩ : ∃ k, tx_type = k + 6 := ⟨tx_type - 6, by omega⟩
  rfl

theorem spec_C7_witness :
    6 ≤ 7 ∧ 7 < 256 ∧
      build_tx 7 1 2 3 none 4 5 = .error (.unknownType 7) :=
  ⟨by decide, by decide,
   spec_C7_unknown_type 7 (by decide) (by decide) 1 2 3 none 4 5⟩

/-- C9: with an 18-decimal native unit, parsing `"0.001"` yields exactly
`10^15` base units, parsing `"1"` yields exactly `10^18`, and parsing a
value with 19 fractional digits fails. -/
theorem spec_C9_parse_amount :
    parse_amount ("0.001") 18 = some (10 ^ 15) ∧
    parse_amount ("1") 18 = some (10 ^ 18) ∧
    parse_amount ("0.0000000000000000001") 18 = none :=
  ⟨by decide, by decide, by decide⟩

/-- C3: for every run of the orchestrator — that is, for every node
behaviour — exactly two fee series are executed, in the fixed order
zero-fees (`Some(0)`, `0`, `0`) then fees-of-value-1 (`Some(1)`, `1`,
`1`), and each series' final summary contains exactly 6 entries, one per
selector `0` through `5` in ascending order, each with a non-empty
outcome string. -/
theorem spec_C3_orchestrator_shape
    (oracle : Nat → TypedTransaction → SubmitOutcome)
    (from_ to_ value : Nat) :
    run_main oracle from_ to_ value =
      [("fees=0", run_series (oracle 0) from_ to_ value (some 0) 0 0),
       ("fees=1", run_series (oracle 1) from_ to_ value (some 1) 1 1)] ∧
    ∀ series ∈ run_main oracle from_ to_ value,
      series.2.map Prod.fst = [0, 1, 2, 3, 4, 5] ∧
      ∀ p ∈ series.2, p.2 ≠ "" := by
  refine ⟨rfl, ?_⟩
  intro series hs
  simp only [run_main, List.mem_cons, List.not_mem_nil, or_false] at hs
  rcases hs with rfl | rfl
  · exact ⟨run_series_map_fst _ _ _ _ _ _ _,
      run_series_snd_ne_empty _ _ _ _ _ _ _⟩
  · exact ⟨run_series_map_fst _ _ _ _ _ _ _,
      run_series_snd_ne_empty _ _ _ _ _ _ _⟩

theorem spec_C3_witness :
    run_main (fun _ _ => Except.error ("x")) 0 0 0 =
      [("fees=0",
        run_series (fun _ => Except.error ("x")) 0 0 0 (some 0) 0 0),
       ("fees=1",
        run_series (fun _ => Except.error ("x")) 0 0 0 (some 1) 1 1)] ∧
    ∀ series ∈ run_main (fun _ _ => Except.error ("x")) 0 0 0,
      series.2.map Prod.fst = [0, 1, 2, 3, 4, 5] ∧
      ∀ p ∈ series.2, p.2 ≠ "" :=
  spec_C3_orchestrator_shape (fun _ _ => Except.error ("x")) 0 0 0

/-- C4: a resolved confirmation wait is recorded as: receipt with status
flag `1` → `"success"`; receipt with any other status flag value →
`"failed"`; receipt present but status flag absent → `"unknown"`; no
receipt returned → `"pending"`; and whenever building and submission
succeed, the outcome the attempt loop records is exactly this
classification of the awaited result. -/
theorem spec_C4_receipt_classification (s : Nat) (hs : s ≠ 1)
    (bn bn2 bn3 : Option Nat) :
    classify_await (.ok (some { status := some 1, block_number := bn })) =
      "success" ∧
    classify_await (.ok (some { status := some s, block_number := bn2 })) =
      "failed" ∧
    classify_await (.ok (some { status := none, block_number := bn3 })) =
      "unknown" ∧
    classify_await (.ok none) = "pending" ∧
    ∀ (submit : TypedTransaction → SubmitOutcome)
      (tx_type from_ to_ value : Nat) (gas_price : Option Nat)
      (max_priority_fee_per_gas max_fee_per_gas : Nat)
      (tx : TypedTransaction) (p : Pending),
      build_tx tx_type from_ to_ value gas_price max_priority_fee_per_gas
          max_fee_per_gas = .ok tx →
      submit tx = .ok p →
      run_attempt submit tx_type from_ to_ value gas_price
          max_priority_fee_per_gas max_fee_per_gas =
        classify_await p.awaited := by
  refine ⟨rfl, ?_, rfl, rfl, ?_⟩
  · have h : classify_await (.ok (some ⟨some s, bn2⟩)) =
        if s = 1 then "success" else "failed" := rfl
    rw [h, if_neg hs]
  · intro submit tx_type from_ to_ value gas_price mp mf tx p hb hsub
    simp only [run_attempt, hb, hsub]

theorem spec_C4_witness :
    (0 : Nat) ≠ 1 ∧
    classify_await (.ok (some { status := some 1, block_number := none })) =
      "success" ∧
    classify_await (.ok (some { status := some 0, block_number := none })) =
      "failed" ∧
    classify_await (.ok (some { status := none, block_number := none })) =
      "unknown" ∧
    classify_await (.ok none) = "pending" ∧
    run_attempt
        (fun _ => Except.ok ⟨5, Except.ok (some ⟨some 1, some 9⟩)⟩)
        0 1 2 3 none 0 0 =
      classify_await
        (Pending.awaited ⟨5, Except.ok (some ⟨some 1, some 9⟩)⟩) := by
  have h := spec_C4_receipt_classification 0 (by decide) none none none
  exact ⟨by decide, h.1, h.2.1, h.2.2.1, h.2.2.2.1,
    h.2.2.2.2 (fun _ => Except.ok ⟨5, Except.ok (some ⟨some 1, some 9⟩)⟩)
      0 1 2 3 none 0 0
      (.legacy { from_ := some 1, to_ := some (.address 2),
                 value := some 3, gas_price := none })
      ⟨5, Except.ok (some ⟨some 1, some 9⟩)⟩ rfl rfl⟩

/-- C6: no attempt failure aborts the run. Under every node behaviour
both series still record all six selectors, and each failure mode is
converted to an outcome at the orchestrator boundary: a builder failure
records `"unsupported"`, a submission failure records `"submit error: "`
plus the message, and a confirmation-wait failure records
`"await error: "` plus the message. -/
theorem spec_C6_failure_containment
    (oracle : Nat → TypedTransaction → SubmitOutcome)
    (from_ to_ value : Nat)
    (submit : TypedTransaction → SubmitOutcome)
    (tx_type f t v : Nat) (gas_price : Option Nat) (mp mf : Nat) :
    (∀ series ∈ run_main oracle from_ to_ value,
      series.2.map Prod.fst = [0, 1, 2, 3, 4, 5]) ∧
    (∀ e : BuildError,
      build_tx tx_type f t v gas_price mp mf = .error e →
      run_attempt submit tx_type f t v gas_price mp mf = "unsupported") ∧
    (∀ (tx : TypedTransaction) (e : String),
      build_tx tx_type f t v gas_price mp mf = .ok tx →
      submit tx = .error e →
      run_attempt submit tx_type f t v gas_price mp mf =
        "submit error: " ++ e) ∧
    (∀ (tx : TypedTransaction) (p : Pending) (e : String),
      build_tx tx_type f t v gas_price mp mf = .ok tx →
      submit tx = .ok p → p.awaited = .error e →
      run_attempt submit tx_type f t v gas_price mp mf =
        "await error: " ++ e) := by
  refine ⟨?_, ?_, ?_, ?_⟩
  · intro series hs
    simp only [run_main, List.mem_cons, List.not_mem_nil, or_false] at hs
    rcases hs with rfl | rfl
    · exact run_series_map_fst _ _ _ _ _ _ _
    · exact run_series_map_fst _ _ _ _ _ _ _
  · intro e hb
    simp only [run_attempt, hb]
  · intro tx e hb hsub
    simp only [run_attempt, hb, hsub]
  · intro tx p e hb hsub haw
    simp only [run_attempt, hb, hsub, classify_await, haw]

theorem spec_C6_witness :
    (∀ series ∈ run_main (fun _ _ => Except.error ("boom")) 0 0 0,
      series.2.map Prod.fst = [0, 1, 2, 3, 4, 5]) ∧
    run_attempt (fun _ => Except.error ("boom")) 3 0 0 0 none 0 0 =
      "unsupported" ∧
    run_attempt (fun _ => Except.error ("boom")) 0 0 0 0 none 0 0 =
      "submit error: " ++ "boom" ∧
    run_attempt (fun _ => Except.ok ⟨0, Except.error ("boom")⟩)
        0 0 0 0 none 0 0 =
      "await error: " ++ "boom" := by
  have h1 := spec_C6_failure_containment
    (fun _ _ => Except.error ("boom")) 0 0 0
    (fun _ => Except.error ("boom")) 3 0 0 0 none 0 0
  have h2 := spec_C6_failure_containment
    (fun _ _ => Except.error ("boom")) 0 0 0
    (fun _ => Except.error ("boom")) 0 0 0 0 none 0 0
  have h3 := spec_C6_failure_containment
    (fun _ _ => Except.error ("boom")) 0 0 0
    (fun _ => Except.ok ⟨0, Except.error ("boom")⟩) 0 0 0 0 none 0 0
  exact ⟨h1.1, h1.2.1 (.unsupportedType 3) rfl,
    h2.2.2.1
      (.legacy { from_ := some 0, to_ := some (.address 0),
                 value := some 0, gas_price := none })
      ("boom") rfl rfl,
    h3.2.2.2
      (.legacy { from_ := some 0, to_ := some (.address 0),
                 value := some 0, gas_price := none })
      ⟨0, Except.error ("boom")⟩ ("boom") rfl rfl rfl⟩

/-- C5 counterexample: at the concrete 20-byte address
`0x0123456789abcdef0123456789abcdef01234567`, whose rendering is the
42-character string `0x` plus 40 hex digits, `format_address` does not
return a string of at most 12 characters (it returns 13), and it is not
of the form `0x` + first 8 hex digits + ellipsis + last 4 hex digits
(only 6 hex digits follow `0x`). -/
theorem spec_C5_cex :
    ¬ ((format_address 0x0123456789abcdef0123456789abcdef01234567).length
        ≤ 12 ∧
      format_address 0x0123456789abcdef0123456789abcdef01234567 =
        '0' :: 'x'
          :: ((toHex40 0x0123456789abcdef0123456789abcdef01234567).take 8
            ++ '…'
              :: (toHex40
                  0x0123456789abcdef0123456789abcdef01234567).drop 36)) := by
  decide

/-- C5 amended: for every address, `format_address` returns the
13-character string `0x` + the first 6 hex characters + ellipsis + the
last 4 hex characters of the rendering, preserving the first 6 and last
4 hex characters; and any string whose length is at most 12 characters
passes through the display truncation untouched. -/
theorem spec_C5_amended (a : Nat) (s : List Char) (h : s.length ≤ 12) :
    format_address a =
      '0' :: 'x' :: ((toHex40 a).take 6 ++ '…' :: (toHex40 a).drop 36) ∧
    (format_address a).length = 13 ∧
    short_display s = s := by
  have hlen : (toHex40 a).length = 40 := by
    simp [toHex40]
  have hform : format_address a =
      '0' :: 'x' :: ((toHex40 a).take 6 ++ '…' :: (toHex40 a).drop 36) := by
    unfold format_address short_display
    rw [if_pos (by simp [hlen])]
    have h42 : ('0' :: 'x' :: toHex40 a).length = 42 := by
      simp [hlen]
    rw [h42]
    rfl
  refine ⟨hform, ?_, ?_⟩
  · rw [hform]
    simp [List.length_take, List.length_drop, hlen]
  · unfold short_display
    rw [if_neg (by omega)]

theorem spec_C5_amended_witness :
    ([] : List Char).length ≤ 12 ∧
    (format_address 0 =
      '0' :: 'x' :: ((toHex40 0).take 6 ++ '…' :: (toHex40 0).drop 36) ∧
    (format_address 0).length = 13 ∧
    short_display ([] : List Char) = ([] : List Char)) :=
  ⟨by decide, spec_C5_amended 0 ([] : List Char) (by decide)⟩

/-- C8: if any of the three required configuration variables `RPC_URL`,
`PRIVATE_KEY`, `TO_ADDRESS` is missing from the environment, `main`
fails immediately with the fatal error naming a missing variable — the
run returns `Except.error` before any collaborator is consulted or any
transaction attempted, which in Rust is a non-zero process exit. -/
theorem spec_C8_missing_required (env : String → Option String)
    (c : Collaborators)
    (oracle : Nat → TypedTransaction → SubmitOutcome)
    (h : env ("RPC_URL") = none ∨ env ("PRIVATE_KEY") = none ∨
      env ("TO_ADDRESS") = none) :
    ∃ v, (v = "RPC_URL" ∨ v = "PRIVATE_KEY" ∨ v = "TO_ADDRESS") ∧
      env v = none ∧
      main_run env c oracle = .error (.config (.missingVar v)) := by
  rcases hr : env ("RPC_URL") with _ | r
  · exact ⟨"RPC_URL", Or.inl rfl, hr,
      by simp only [main_run, read_config, env_var, hr]⟩
  · rcases hp : env ("PRIVATE_KEY") with _ | p
    · exact ⟨"PRIVATE_KEY", Or.inr (Or.inl rfl), hp,
        by simp only [main_run, read_config, env_var, hr, hp]⟩
    · rcases ht : env ("TO_ADDRESS") with _ | t
      · exact ⟨"TO_ADDRESS", Or.inr (Or.inr rfl), ht,
          by simp only [main_run, read_config, env_var, hr, hp, ht]⟩
      · rcases h with h | h | h
        · rw [hr] at h
          exact absurd h (by simp)
        · rw [hp] at h
          exact absurd h (by simp)
        · rw [ht] at h
          exact absurd h (by simp)

theorem spec_C8_witness :
    ∃ v, (v = "RPC_URL" ∨ v = "PRIVATE_KEY" ∨ v = "TO_ADDRESS") ∧
      (fun _ : String => (none : Option String)) v = none ∧
      main_run (fun _ => none)
        ⟨fun _ => Except.ok (), fun _ => Except.ok 0,
         fun _ => Except.ok 0, fun _ => Except.ok 0⟩
        (fun _ _ => Except.error ("x")) =
        .error (.config (.missingVar v)) :=
  spec_C8_missing_required (fun _ => none)
    ⟨fun _ => Except.ok (), fun _ => Except.ok 0,
     fun _ => Except.ok 0, fun _ => Except.ok 0⟩
    (fun _ _ => Except.error ("x")) (Or.inl rfl)

/-- C10: the two optional numeric configuration variables are handled
asymmetrically on malformed input. With the three required variables
present: if `CHAIN_ID` is set to a string that does not parse as a
`u64`, configuration reading — and hence the whole run — aborts fatally
before any attempt; if instead `FEE_MULTIPLIER` is set to a string that
does not parse, configuration succeeds with the default value 2
substituted silently. -/
theorem spec_C10_optional_env_asymmetry (env : String → Option String)
    (r p t s : String) (c : Collaborators)
    (oracle : Nat → TypedTransaction → SubmitOutcome)
    (hr : env ("RPC_URL") = some r) (hp : env ("PRIVATE_KEY") = some p)
    (ht : env ("TO_ADDRESS") = some t) (hbad : parse_u64 s = none) :
    (env ("CHAIN_ID") = some s →
      read_config env = .error (.invalidChainId s) ∧
      main_run env c oracle = .error (.config (.invalidChainId s))) ∧
    (env ("CHAIN_ID") = none → env ("FEE_MULTIPLIER") = some s →
      ∃ cfg, read_config env = .ok cfg ∧ cfg.fee_multiplier = 2) := by
  constructor
  · intro hc
    have hrc : read_config env = .error (.invalidChainId s) := by
      simp only [read_config, env_var, hr, hp, ht, hc, Option.getD_some,
        hbad]
    exact ⟨hrc, by simp only [main_run, hrc]⟩
  · intro hc hf
    have h1 : parse_u64 ("11155111") = some 11155111 := by decide
    have hrc : read_config env =
        .ok { rpc_url := r, priv_key := p, to_addr := t,
              amount_eth := (env ("AMOUNT_ETH")).getD ("0.001"),
              chain_id := 11155111,
              priority_gwei := (env ("PRIORITY_GWEI")).getD ("2"),
              fee_multiplier := 2 } := by
      simp only [read_config, env_var, hr, hp, ht, hc, hf,
        Option.getD_none, Option.getD_some, h1, hbad]
    exact ⟨_, hrc, rfl⟩

theorem spec_C10_witness :
    read_config
        (fun n => if n = ("CHAIN_ID") then some ("zz") else some ("1")) =
      .error (.invalidChainId ("zz")) ∧
    main_run
        (fun n => if n = ("CHAIN_ID") then some ("zz") else some ("1"))
        ⟨fun _ => Except.ok (), fun _ => Except.ok 0,
         fun _ => Except.ok 0, fun _ => Except.ok 0⟩
        (fun _ _ => Except.error ("x")) =
      .error (.config (.invalidChainId ("zz"))) ∧
    ∃ cfg,
      read_config
          (fun n => if n = ("CHAIN_ID") then none
            else if n = ("FEE_MULTIPLIER") then some ("zz")
            else some ("1")) =
        .ok cfg ∧
      cfg.fee_multiplier = 2 := by
  have hA := (spec_C10_optional_env_asymmetry
    (fun n => if n = ("CHAIN_ID") then some ("zz") else some ("1"))
    ("1") ("1") ("1") ("zz")
    ⟨fun _ => Except.ok (), fun _ => Except.ok 0,
     fun _ => Except.ok 0, fun _ => Except.ok 0⟩
    (fun _ _ => Except.error ("x"))
    (by decide) (by decide) (by decide) (by decide)).1 (by decide)
  have hB := (spec_C10_optional_env_asymmetry
    (fun n => if n = ("CHAIN_ID") then none
      else if n = ("FEE_MULTIPLIER") then some ("zz")
      else some ("1"))
    ("1") ("1") ("1") ("zz")
    ⟨fun _ => Except.ok (), fun _ => Except.ok 0,
     fun _ => Except.ok 0, fun _ => Except.ok 0⟩
    (fun _ _ => Except.error ("x"))
    (by decide) (by decide) (by decide) (by decide)).2 (by decide)
    (by decide)
  exact ⟨hA.1, hA.2, hB⟩
